import Mathlib

/-!
Shallow embedding of the WhatsApp session service (balaghwhatsapp):
the health-monitoring state machine, recovery controller, phone/message
validation, bulk and group send loops, session lookup, and the
session/group listing operations, translated from the source class
`WhatsAppService` in the service module.  Timestamps (`lastCheck`,
`Date.now()` bookkeeping) are omitted; everything else follows the source
line by line.  External effects (the browser-automation client, the
document store, the socket broadcast) are modelled by explicit outcome
parameters.
-/

namespace Balagh

/-- Health record tracked per session in `sessionHealthStatus`
(source: `WhatsAppService` constructor and `handleUnhealthySession`).
The source also stores a `lastCheck` wall-clock timestamp, omitted here. -/
structure HealthRecord where
  healthy : Bool
  failedChecks : Nat
  lastError : Option String := none
deriving DecidableEq, Repr

/-- Threshold of failed checks before restart (source: `this.maxFailedChecks = 3`). -/
def maxFailedChecks : Nat := 3

/-- Recovery of a session (source: `recoverSession`): destroys and recreates the
client.  The outcome of `createSession` is abstracted by `createOk`.  On success
the health record is reset to a fresh healthy record with zero failed checks; on
failure the record is deleted from `sessionHealthStatus`. -/
def recoverSession (createOk : Bool) : Option HealthRecord :=
  if createOk then some { healthy := true, failedChecks := 0, lastError := none } else none

/-- Handler for an unhealthy observation (source: `handleUnhealthySession`).
Reads the current record (defaulting to zero failed checks), increments the
counter, records the reason, and triggers `recoverSession` exactly when the
incremented counter reaches `maxFailedChecks`.  Returns the resulting record
state and whether recovery was triggered. -/
def handleUnhealthySession (createOk : Bool) (st : Option HealthRecord) (reason : String) :
    Option HealthRecord × Bool :=
  let prev := st.getD { healthy := false, failedChecks := 0, lastError := none }
  let updated : HealthRecord :=
    { healthy := false, failedChecks := prev.failedChecks + 1, lastError := some reason }
  if maxFailedChecks ≤ updated.failedChecks then
    (recoverSession createOk, true)
  else
    (some updated, false)

/-- Outcome of one `client.getState()` poll: the state string it resolved to,
or the message of the error it threw (a timeout is such an error). -/
inductive PollOutcome where
  | state (s : String)
  | error (msg : String)
deriving DecidableEq, Repr

/-- One poll of the two-argument `checkSessionHealth(sessionId, client)`
variant the sweep was written against: state CONNECTED resets the record to
healthy with zero failed checks; any other state or a thrown error goes to
`handleUnhealthySession`.  At runtime this method is dead code: the class
body later redefines `checkSessionHealth` with the cached one-argument
variant (see `checkSessionHealthCached`), and by JavaScript class semantics
the later definition shadows this one on the prototype, so the sweep never
executes this body (see `checkAllSessionsHealthStep`). -/
def checkSessionHealth (createOk : Bool) (st : Option HealthRecord) (o : PollOutcome) :
    Option HealthRecord × Bool :=
  match o with
  | PollOutcome.state s =>
      if s = "CONNECTED" then
        (some { healthy := true, failedChecks := 0, lastError := none }, false)
      else
        handleUnhealthySession createOk st ("Disconnected state: " ++ s)
  | PollOutcome.error msg => handleUnhealthySession createOk st msg

/-- Number of failed checks recorded in a (possibly absent) health record. -/
def fcOf : Option HealthRecord → Nat
  | none => 0
  | some h => h.failedChecks

/-- Boolean list-prefix test used to embed the substring test. -/
def isPrefixB : List Char → List Char → Bool
  | [], _ => true
  | _ :: _, [] => false
  | a :: pat, b :: l => a == b && isPrefixB pat l

/-- Whether `pat` occurs as a contiguous sublist of the second argument. -/
def containsSub (pat : List Char) : List Char → Bool
  | [] => isPrefixB pat []
  | b :: l => isPrefixB pat (b :: l) || containsSub pat l

/-- Embedding of JavaScript `String.prototype.includes`. -/
def includes (s pat : String) : Bool :=
  containsSub pat.data s.data

/-- Fatal session-error classification used throughout the source:
the error text contains Session closed or Protocol error. -/
def isFatalSessionError (msg : String) : Bool :=
  includes msg "Session closed" || includes msg "Protocol error"

/-- Embedding of the `client.on(..)` generic error handler installed by
`createSession`: errors matching the fatal patterns are routed to
`handleUnhealthySession`; any other error is only logged, leaving the
health record untouched and triggering nothing. -/
def clientErrorHandler (createOk : Bool) (st : Option HealthRecord) (msg : String) :
    Option HealthRecord × Bool :=
  if isFatalSessionError msg then
    handleUnhealthySession createOk st msg
  else
    (st, false)

/-- Collapse of the international dialing escape (source: `formatPhoneNumber`
after the non-digit strip): a leading 00 is dropped; otherwise a single leading
0 is dropped when more than 10 digits remain. -/
def collapseIntl (digits : List Char) : List Char :=
  if digits.take 2 = ['0', '0'] then digits.drop 2
  else if digits.take 1 = ['0'] ∧ 10 < digits.length then digits.drop 1
  else digits

/-- Core of `formatPhoneNumber` on the stripped digit list: collapse the
international escape, then reject fewer than 10 or more than 15 digits. -/
def formatNumberCore (orig : String) (digits : List Char) : Except String (List Char) :=
  if (collapseIntl digits).length < 10 then
    Except.error ("Invalid phone number: " ++ orig ++ ". Must be at least 10 digits.")
  else if 15 < (collapseIntl digits).length then
    Except.error ("Invalid phone number: " ++ orig ++ ". Too long.")
  else
    Except.ok (collapseIntl digits)

/-- Embedding of `formatPhoneNumber`: strip every non-digit character, collapse
the international escape, validate the length bounds.  A thrown validation
error is modelled as `Except.error`. -/
def formatPhoneNumber (phoneNumber : String) : Except String String :=
  (formatNumberCore phoneNumber (phoneNumber.data.filter Char.isDigit)).map String.mk

/-- Embedding of JavaScript `String.prototype.trim`: whitespace is removed
from both ends of the string. -/
def trim (s : String) : String :=
  String.mk (((s.data.dropWhile Char.isWhitespace).reverse.dropWhile Char.isWhitespace).reverse)

/-- Embedding of `validateMessage`: a non-string or falsy message is rejected
(for a string argument that is exactly the empty string), then the message is
trimmed and rejected when empty or longer than 4096 characters, otherwise the
trimmed message is returned. -/
def validateMessage (message : String) : Except String String :=
  if message = "" then Except.error "Message must be a non-empty string"
  else
    let trimmed := trim message
    if trimmed.length = 0 then Except.error "Message cannot be empty"
    else if 4096 < trimmed.length then
      Except.error "Message too long. Maximum 4096 characters allowed."
    else Except.ok trimmed

/-- Outcome of one `sendMessage` attempt inside `sendBulkMessages`: success
carries the formatted phone and the message id of the sent message, failure
carries the thrown error's message (a validation throw from
`formatPhoneNumber`, a not-registered error, or a send failure alike). -/
inductive BulkOutcome where
  | ok (formattedPhone messageId : String)
  | err (msg : String)
deriving DecidableEq, Repr

/-- Whether a bulk outcome is a success. -/
def BulkOutcome.isOk : BulkOutcome → Bool
  | BulkOutcome.ok _ _ => true
  | BulkOutcome.err _ => false

/-- Per-item entry pushed into `results` by `sendBulkMessages`. -/
structure BulkItemResult where
  phoneNumber : String
  success : Bool
  formattedPhone : Option String := none
  messageId : Option String := none
  error : Option String := none
deriving DecidableEq, Repr

/-- Aggregate result returned by `sendBulkMessages`. -/
structure BulkResult where
  results : List BulkItemResult
  totalSent : Nat
  totalFailed : Nat
deriving DecidableEq, Repr

/-- The per-number loop of `sendBulkMessages`: each number is attempted in
order; a success pushes a success entry, a caught error pushes a failure entry,
and the loop always continues to the next number. -/
def sendBulkLoop : List (String × BulkOutcome) → List BulkItemResult
  | [] => []
  | (p, BulkOutcome.ok fp mid) :: rest =>
      { phoneNumber := p, success := true, formattedPhone := some fp,
        messageId := some mid } :: sendBulkLoop rest
  | (p, BulkOutcome.err m) :: rest =>
      { phoneNumber := p, success := false, error := some m } :: sendBulkLoop rest

/-- Embedding of the result aggregation of `sendBulkMessages`: run the loop,
count the successes, and report `totalSent` and `totalFailed`.  Each input item
is the phone number paired with the outcome its `sendMessage` attempt would
produce. -/
def sendBulkMessages (items : List (String × BulkOutcome)) : BulkResult :=
  let results := sendBulkLoop items
  let successCount := (results.filter (fun r => r.success)).length
  { results := results, totalSent := successCount,
    totalFailed := results.length - successCount }

/-- Delay inserted before item `i` of `sendBulkMessages`, in milliseconds:
none before the first item, otherwise `2000 + r * 1000` where `r` is the value
returned by `Math.random()` (so `0 ≤ r < 1`). -/
def bulkDelay (i : Nat) (r : ℚ) : Option ℚ :=
  if 0 < i then some (2000 + r * 1000) else none

/-- Outcome of one iteration body of the `sendBulkMessagesToChats` loop
(the state re-check, chat lookup and send combined): success, or a thrown
error's message. -/
inductive ChatOutcome where
  | ok
  | err (msg : String)
deriving DecidableEq, Repr

/-- Failure entry pushed into `results.failed` by `sendBulkMessagesToChats`. -/
structure ChatFailure where
  chatId : String
  error : String
deriving DecidableEq, Repr

/-- The per-chat loop of `sendBulkMessagesToChats`: successes accumulate into
`successful`, a caught error accumulates into `failed` and additionally breaks
out of the loop when its message matches the fatal session-error patterns.
Returns the `successful` list, the `failed` list, and the number of loop
iterations actually executed. -/
def sendChatsLoop : List (String × ChatOutcome) → List String × List ChatFailure × Nat
  | [] => ([], [], 0)
  | (chatId, ChatOutcome.ok) :: rest =>
      let next := sendChatsLoop rest
      (chatId :: next.1, next.2.1, next.2.2 + 1)
  | (chatId, ChatOutcome.err msg) :: rest =>
      if isFatalSessionError msg then
        ([], [{ chatId := chatId, error := msg }], 1)
      else
        let next := sendChatsLoop rest
        (next.1, { chatId := chatId, error := msg } :: next.2.1, next.2.2 + 1)

/-- Value of the `sessionId` variable after the fallback block shared
verbatim by `sendBulkMessages` and `sendGroupMessage`: when the requested id
is registered it is kept; otherwise the first registered client's id, if any,
silently replaces it; only with an empty registry is the lookup error thrown.
`clientIds` is the registry's key list in insertion order (every stored
client object is truthy, so the source's filter keeps all entries).  What
happens downstream differs per caller: the bulk path re-looks the client up
by this id (see `sendMessageClientLookup`), while the group path keeps its
stale client binding (see `groupFallbackBlock`). -/
def resolveSessionId (clientIds : List String) (sessionId : String) : Except String String :=
  if sessionId ∈ clientIds then Except.ok sessionId
  else
    match clientIds with
    | [] => Except.error ("WhatsApp session not found or not connected. Requested: " ++ sessionId)
    | first :: _ => Except.ok first

/-- The client lookup at the top of `sendMessage`, reached from the
`sendBulkMessages` loop with the possibly-reassigned session id: a registered
id proceeds on that session, a missing id throws listing the available
keys. -/
def sendMessageClientLookup (clientIds : List String) (sessionId : String) :
    Except String String :=
  if sessionId ∈ clientIds then Except.ok sessionId
  else
    Except.error ("WhatsApp session not found or not connected. Available: [" ++
      String.intercalate ", " clientIds ++ "]")

/-- The `const client` binding and `sessionId` variable as they stand after
the fallback block of `sendGroupMessage`: the const binding holds the lookup
of the originally requested id and is never refreshed by the fallback, which
reassigns only the `sessionId` variable (or throws when the registry is
empty). -/
def groupFallbackBlock (clientIds : List String) (sessionId : String) :
    Except String (Option String × String) :=
  if sessionId ∈ clientIds then Except.ok (some sessionId, sessionId)
  else
    match clientIds with
    | [] =>
        Except.error
          ("WhatsApp session not found or not connected. Requested: " ++ sessionId)
    | first :: _ => Except.ok (none, first)

/-- The dereference `client.sendMessage(groupChatId, ...)` in
`sendGroupMessage`: a still-undefined client throws a TypeError (message
paraphrased without quote characters); a present client performs the group
send on that client's own session. -/
def groupSendDeref : Option String × String → Except String String
  | (some c, _) => Except.ok c
  | (none, _) =>
      Except.error "TypeError: Cannot read properties of undefined (reading sendMessage)"

/-- Session whose client actually performs the group send in
`sendGroupMessage`, or the error thrown before any send happens. -/
def sendGroupMessageUses (clientIds : List String) (sessionId : String) :
    Except String String :=
  (groupFallbackBlock clientIds sessionId).bind groupSendDeref

/-- Result returned by the cached `checkSessionHealth(sessionId)` variant. -/
structure HealthResult where
  healthy : Bool
  reason : String
deriving DecidableEq, Repr

/-- Embedding of the cached `checkSessionHealth(sessionId)` variant: a cache
entry younger than 15 seconds is returned as is; with a cache miss, an absent
client classifies as unhealthy with reason Client not found in memory, and a
present client is classified from its `getState` outcome (only CONNECTED is
healthy; a thrown error or timeout reports its message).  The function only
reads the registry and writes the cache: it never touches
`sessionHealthStatus`. -/
def checkSessionHealthCached (cached : Option HealthResult) (client : Option PollOutcome) :
    HealthResult :=
  match cached with
  | some r => r
  | none =>
      match client with
      | none => { healthy := false, reason := "Client not found in memory" }
      | some (PollOutcome.state s) =>
          if s = "CONNECTED" then { healthy := true, reason := "Connected and responsive" }
          else { healthy := false, reason := "Client state: " ++ s }
      | some (PollOutcome.error m) => { healthy := false, reason := m }

/-- Effective behaviour of one iteration of the Health Monitor sweep at
runtime.  The class body defines `checkSessionHealth` twice; by JavaScript
class semantics the later cached one-argument variant shadows the earlier
two-argument variant, so `checkAllSessionsHealth` calling
`this.checkSessionHealth(sessionId, client)` dispatches to the cached variant
(the extra client argument is ignored), which computes and caches a
`HealthResult` but never calls `handleUnhealthySession` and never writes
`sessionHealthStatus`: the health record passes through unchanged. -/
def checkAllSessionsHealthStep (cached : Option HealthResult) (client : Option PollOutcome)
    (st : Option HealthRecord) : Option HealthRecord × HealthResult :=
  (st, checkSessionHealthCached cached client)

/-- Health gate at the top of `getWhatsAppContacts`: an unhealthy result is
forwarded to `handleUnhealthySession` (with its reason) and the operation
returns the empty list instead of proceeding.  Returns the updated health
record state, whether recovery was triggered, and whether the listing
proceeds. -/
def getWhatsAppContactsGate (createOk : Bool) (hr : HealthResult) (st : Option HealthRecord) :
    Option HealthRecord × Bool × Bool :=
  if hr.healthy then (st, false, true)
  else
    let step := handleUnhealthySession createOk st hr.reason
    (step.1, step.2, false)

/-- Persisted session document fields read by `getSessions` (absent document
fields are `none`). -/
structure SessionDoc where
  sessionId : String
  adminEmail : Option String := none
  status : Option String := none
  phoneNumber : Option String := none
  clientName : Option String := none
  qrCode : Option String := none
deriving DecidableEq, Repr

/-- Entry of the list returned by `getSessions`. -/
structure SessionInfo where
  sessionId : String
  adminEmail : Option String
  status : String
  phoneNumber : Option String
  clientName : Option String
  qrCode : Option String
deriving DecidableEq, Repr

/-- The JavaScript `sessionData.status || 'disconnected'` fallback: an absent
or empty (falsy) status falls back to disconnected. -/
def statusOrDisconnected : Option String → String
  | some s => if s = "" then "disconnected" else s
  | none => "disconnected"

/-- Status computed by `getSessions` for one document: no in-memory client
means disconnected; with a client, only a `getState` result of CONNECTED
reports connected, any other state or a thrown state error falls back to the
persisted status. -/
def actualStatus (client : Option PollOutcome) (dbStatus : Option String) : String :=
  match client with
  | none => "disconnected"
  | some (PollOutcome.state s) =>
      if s = "CONNECTED" then "connected" else statusOrDisconnected dbStatus
  | some (PollOutcome.error _) => statusOrDisconnected dbStatus

/-- Embedding of `getSessions`: a database failure is caught and yields the
empty list; otherwise every document is mapped to an entry whose status is
reconciled against the in-memory registry (`clients` pairs each registered id
with its `getState` outcome). -/
def getSessions (dbResult : Except String (List SessionDoc))
    (clients : List (String × PollOutcome)) : List SessionInfo :=
  match dbResult with
  | Except.error _ => []
  | Except.ok docs =>
      docs.map (fun d =>
        { sessionId := d.sessionId, adminEmail := d.adminEmail,
          status := actualStatus ((clients.lookup d.sessionId)) d.status,
          phoneNumber := d.phoneNumber, clientName := d.clientName, qrCode := d.qrCode })

/-- Persisted group document fields read by `getGroups`. -/
structure GroupDoc where
  groupId : String
  groupName : String
  memberCount : Option Nat := none
  members : List String := []
  sessionId : String
  adminEmail : Option String := none
  createdAt : Option Nat := none
deriving DecidableEq, Repr

/-- Entry of the list returned by `getGroups` (`createdAt` in epoch
milliseconds, absent timestamps treated as epoch zero by the sort). -/
structure GroupInfo where
  groupId : String
  groupName : String
  memberCount : Nat
  members : List String
  sessionId : String
  adminEmail : Option String
  createdAt : Option Nat
deriving DecidableEq, Repr

/-- Embedding of `getGroups`: a database failure is caught and yields the
empty list; otherwise documents are mapped (missing member counts and member
lists defaulting to zero and empty) and sorted newest first by creation
time. -/
def getGroups (dbResult : Except String (List GroupDoc)) : List GroupInfo :=
  match dbResult with
  | Except.error _ => []
  | Except.ok docs =>
      let groups : List GroupInfo := docs.map (fun g =>
        { groupId := g.groupId, groupName := g.groupName,
          memberCount := g.memberCount.getD 0, members := g.members,
          sessionId := g.sessionId, adminEmail := g.adminEmail,
          createdAt := g.createdAt })
      groups.mergeSort (fun a b => (b.createdAt.getD 0) ≤ (a.createdAt.getD 0))

theorem handleUnhealthy_eq (c : Bool) (st : Option HealthRecord) (reason : String) :
    handleUnhealthySession c st reason =
      if maxFailedChecks ≤ fcOf st + 1 then (recoverSession c, true)
      else
        (some { healthy := false, failedChecks := fcOf st + 1, lastError := some reason },
          false) := by
  cases st <;> rfl

/-- C1 (code bug): the per-poll counter discipline the claim and spec
describe is written in the two-argument `checkSessionHealth` variant, but the
class body later redefines `checkSessionHealth` with the cached one-argument
variant, which shadows it, so the Health Monitor sweep never updates the
record.  At a concrete failing input (a timed-out poll against a record with
zero failed checks) the shadowed variant would increment the counter to one,
while the sweep step that actually runs leaves the record unchanged; a
CONNECTED poll likewise fails to reset a non-zero counter, so the program
never increments failedChecks per failed poll nor resets it on success and
the poll path can never trigger recovery. -/
theorem healthMonitor_shadowed_sweep :
    (checkSessionHealth true (some { healthy := false, failedChecks := 0, lastError := none })
        (PollOutcome.error "Health check timeout")).1 =
      some { healthy := false, failedChecks := 1,
             lastError := some "Health check timeout" } ∧
    (checkAllSessionsHealthStep none (some (PollOutcome.error "Health check timeout"))
        (some { healthy := false, failedChecks := 0, lastError := none })).1 =
      some { healthy := false, failedChecks := 0, lastError := none } ∧
    (checkAllSessionsHealthStep none (some (PollOutcome.state "CONNECTED"))
        (some { healthy := false, failedChecks := 2, lastError := none })).1 =
      some { healthy := false, failedChecks := 2, lastError := none } :=
  ⟨by decide, rfl, rfl⟩

/-- C2 counterexample: an error matching the fatal pattern Protocol error,
arriving with a zero failure counter, does not trigger recovery immediately
and does not bypass the counter: it increments the counter to one with no
recovery; and an error matching no pattern leaves the counter unchanged
instead of incrementing it. -/
theorem clientError_fatal_counterexample :
    clientErrorHandler true (some { healthy := false, failedChecks := 0, lastError := none })
        "Protocol error" =
      (some { healthy := false, failedChecks := 1, lastError := some "Protocol error" },
        false) ∧
    clientErrorHandler true (some { healthy := false, failedChecks := 0, lastError := none })
        "database hiccup" =
      (some { healthy := false, failedChecks := 0, lastError := none }, false) :=
  ⟨by decide, by decide⟩

/-- C2 (amended): an error whose text contains Session closed or Protocol
error is routed into the unhealthy-session handler, so it increments the
failure counter by one and triggers recovery only when the counter reaches
the threshold of 3; an error not matching those patterns is ignored by the
handler, leaving the health record unchanged and never triggering
recovery. -/
theorem clientErrorHandler_spec (c : Bool) (st : Option HealthRecord) (msg : String) :
    (isFatalSessionError msg = true →
        clientErrorHandler c st msg = handleUnhealthySession c st msg ∧
        (fcOf st + 1 < maxFailedChecks →
            clientErrorHandler c st msg =
              (some { healthy := false, failedChecks := fcOf st + 1, lastError := some msg },
                false)) ∧
        (maxFailedChecks ≤ fcOf st + 1 → (clientErrorHandler c st msg).2 = true)) ∧
    (isFatalSessionError msg = false → clientErrorHandler c st msg = (st, false)) := by
  constructor
  · intro hf
    have he : clientErrorHandler c st msg = handleUnhealthySession c st msg := by
      simp [clientErrorHandler, hf]
    refine ⟨he, fun h => ?_, fun h => ?_⟩
    · rw [he, handleUnhealthy_eq, if_neg (by omega)]
    · rw [he, handleUnhealthy_eq, if_pos h]
  · intro hf
    simp [clientErrorHandler, hf]

/-- Witness for C2 at concrete inputs: a first Protocol error increments an
absent record to one failed check with no recovery; an unrecognised error
leaves the record absent. -/
theorem clientErrorHandler_spec_witness :
    clientErrorHandler true none "Protocol error" =
      (some { healthy := false, failedChecks := 1, lastError := some "Protocol error" },
        false) ∧
    clientErrorHandler true none "odd glitch" = (none, false) := by
  constructor
  · have h := ((clientErrorHandler_spec true none "Protocol error").1 (by decide)).2.1 (by decide)
    simpa [fcOf] using h
  · exact (clientErrorHandler_spec true none "odd glitch").2 (by decide)

/-- C3: in the per-chat loop of `sendBulkMessagesToChats`, when the targets
before index k all succeed and target k fails with a fatal connection error
(text containing Session closed or Protocol error), the result holds exactly
the k earlier targets as successes and exactly one failure entry for target k,
and only k+1 loop iterations run, so the remaining targets are never
attempted; a failure of any other kind records its entry and the loop
continues over the rest. -/
theorem sendBulkMessagesToChats_spec (pre post : List (String × ChatOutcome))
    (t msg : String) (hpre : ∀ x ∈ pre, x.2 = ChatOutcome.ok) :
    (isFatalSessionError msg = true →
        sendChatsLoop (pre ++ (t, ChatOutcome.err msg) :: post) =
          (pre.map Prod.fst, [{ chatId := t, error := msg }], pre.length + 1)) ∧
    (isFatalSessionError msg = false →
        sendChatsLoop (pre ++ (t, ChatOutcome.err msg) :: post) =
          (pre.map Prod.fst ++ (sendChatsLoop post).1,
            { chatId := t, error := msg } :: (sendChatsLoop post).2.1,
            pre.length + 1 + (sendChatsLoop post).2.2)) := by
  induction pre with
  | nil =>
    constructor
    · intro hf
      simp [sendChatsLoop, hf]
    · intro hf
      simp [sendChatsLoop, hf]
      omega
  | cons hd tl ih =>
    obtain ⟨chatId, oc⟩ := hd
    have hok : oc = ChatOutcome.ok := hpre (chatId, oc) (by simp)
    subst hok
    have ih2 := ih (fun x hx => hpre x (List.mem_cons_of_mem _ hx))
    constructor
    · intro hf
      have h2 := ih2.1 hf
      simp only [List.append_eq] at h2 ⊢
      simp only [List.cons_append, sendChatsLoop, List.append_eq, h2, List.map_cons,
        List.length_cons]
    · intro hf
      have h2 := ih2.2 hf
      simp only [List.append_eq] at h2 ⊢
      simp only [List.cons_append, sendChatsLoop, List.append_eq, h2, List.map_cons,
        List.length_cons, List.cons_append, Prod.mk.injEq]
      refine ⟨trivial, trivial, by omega⟩

/-- Witness for C3 at concrete inputs: a Session closed failure at index 1 of
3 gives one success, one failure and two attempts; an ordinary failure at
index 1 lets index 2 run. -/
theorem sendBulkMessagesToChats_witness :
    sendChatsLoop
        [("a", ChatOutcome.ok), ("b", ChatOutcome.err "Session closed"),
          ("c", ChatOutcome.ok)] =
      (["a"], [{ chatId := "b", error := "Session closed" }], 2) ∧
    sendChatsLoop
        [("a", ChatOutcome.ok), ("b", ChatOutcome.err "slow network"),
          ("c", ChatOutcome.ok)] =
      (["a", "c"], [{ chatId := "b", error := "slow network" }], 3) := by
  constructor
  · have h := (sendBulkMessagesToChats_spec [("a", ChatOutcome.ok)] [("c", ChatOutcome.ok)]
      "b" "Session closed" (by decide)).1 (by decide)
    simpa using h
  · have h := (sendBulkMessagesToChats_spec [("a", ChatOutcome.ok)] [("c", ChatOutcome.ok)]
      "b" "slow network" (by decide)).2 (by decide)
    simpa [sendChatsLoop] using h

theorem sendBulkLoop_map_phone (items : List (String × BulkOutcome)) :
    (sendBulkLoop items).map BulkItemResult.phoneNumber = items.map Prod.fst := by
  induction items with
  | nil => rfl
  | cons hd tl ih =>
    obtain ⟨p, oc⟩ := hd
    cases oc <;> simp [sendBulkLoop, ih]

theorem sendBulkLoop_length (items : List (String × BulkOutcome)) :
    (sendBulkLoop items).length = items.length := by
  induction items with
  | nil => rfl
  | cons hd tl ih =>
    obtain ⟨p, oc⟩ := hd
    cases oc <;> simp [sendBulkLoop, ih]

theorem sendBulkLoop_successCount (items : List (String × BulkOutcome)) :
    ((sendBulkLoop items).filter (fun r => r.success)).length =
      (items.filter (fun it => it.2.isOk)).length := by
  induction items with
  | nil => rfl
  | cons hd tl ih =>
    obtain ⟨p, oc⟩ := hd
    cases oc <;> simp [sendBulkLoop, List.filter_cons, BulkOutcome.isOk, ih]

theorem filter_length_add_not (l : List (String × BulkOutcome)) :
    (l.filter (fun it => it.2.isOk)).length +
      (l.filter (fun it => ! it.2.isOk)).length = l.length := by
  induction l with
  | nil => rfl
  | cons hd tl ih =>
    cases h : hd.2.isOk <;> simp [List.filter_cons, h] <;> omega

/-- C4: the bulk send processes the numbers sequentially in input order,
producing one per-item entry per input number in the original order, never
aborting on a single item's failure; the aggregate success and failure counts
sum to the number of inputs; with exactly one failing item the result reports
exactly 1 failure and N-1 successes; and every item after the first is
preceded by a randomized delay of between 2000 and 3000 milliseconds while
the first is not delayed. -/
theorem sendBulkMessages_spec (items : List (String × BulkOutcome)) :
    ((sendBulkMessages items).results.map BulkItemResult.phoneNumber = items.map Prod.fst) ∧
    ((sendBulkMessages items).results.length = items.length) ∧
    ((sendBulkMessages items).totalSent + (sendBulkMessages items).totalFailed =
      items.length) ∧
    ((items.filter (fun it => ! it.2.isOk)).length = 1 →
        (sendBulkMessages items).totalFailed = 1 ∧
        (sendBulkMessages items).totalSent = items.length - 1) ∧
    (∀ r : ℚ, 0 ≤ r → r < 1 →
        bulkDelay 0 r = none ∧
        ∀ i, 0 < i → ∃ d, bulkDelay i r = some d ∧ 2000 ≤ d ∧ d < 3000) := by
  have hs := sendBulkLoop_successCount items
  have hl := sendBulkLoop_length items
  have hf := filter_length_add_not items
  have hle : ((sendBulkLoop items).filter (fun r => r.success)).length ≤
      (sendBulkLoop items).length := List.length_filter_le _ _
  refine ⟨sendBulkLoop_map_phone items, hl, by simp [sendBulkMessages]; omega,
    fun h1 => ?_, fun r hr0 hr1 => ?_⟩
  · constructor <;> simp [sendBulkMessages] <;> omega
  · refine ⟨rfl, fun i hi => ⟨2000 + r * 1000, ?_, by linarith, ?_⟩⟩
    · simp [bulkDelay, hi]
    · have : r * 1000 < 1 * 1000 := by
        exact mul_lt_mul_of_pos_right hr1 (by norm_num)
      linarith

/-- Witness for C4 at a concrete two-item batch with one failing destination:
one failure and one success are reported, and the delay before the second
item at a concrete random draw is in range while the first has none. -/
theorem sendBulkMessages_witness :
    (sendBulkMessages [("a", BulkOutcome.ok "fa" "m1"), ("b", BulkOutcome.err "bad")]).totalFailed
        = 1 ∧
    (sendBulkMessages [("a", BulkOutcome.ok "fa" "m1"), ("b", BulkOutcome.err "bad")]).totalSent
        = 1 ∧
    bulkDelay 0 (1 / 2) = none := by
  have h := sendBulkMessages_spec [("a", BulkOutcome.ok "fa" "m1"), ("b", BulkOutcome.err "bad")]
  have h4 := h.2.2.2.1 (by decide)
  exact ⟨h4.1, h4.2, (h.2.2.2.2 (1 / 2) (by norm_num) (by norm_num)).1⟩

/-- C5: phone-number normalization strips all non-digit characters, collapses
a leading 00 escape (otherwise a single leading 0 when more than 10 digits
remain), and returns the processed digit string exactly when its length is
between 10 and 15 inclusive; a processed string of fewer than 10 or more than
15 digits makes normalization fail with a validation error. -/
theorem formatPhoneNumber_spec (p : String) :
    (10 ≤ (collapseIntl (p.data.filter Char.isDigit)).length →
        (collapseIntl (p.data.filter Char.isDigit)).length ≤ 15 →
        formatPhoneNumber p =
          Except.ok (String.mk (collapseIntl (p.data.filter Char.isDigit)))) ∧
    ((collapseIntl (p.data.filter Char.isDigit)).length < 10 ∨
        15 < (collapseIntl (p.data.filter Char.isDigit)).length →
        ∃ e, formatPhoneNumber p = Except.error e) := by
  simp only [formatPhoneNumber, formatNumberCore]
  constructor
  · intro h1 h2
    rw [if_neg (by omega), if_neg (by omega)]
    rfl
  · intro h
    rcases h with h | h
    · rw [if_pos h]
      exact ⟨_, rfl⟩
    · rw [if_neg (by omega), if_pos h]
      exact ⟨_, rfl⟩

/-- Witness for C5 at concrete inputs: a 00-escaped 13-digit input normalizes
to its 11-digit national-significant form, and a 9-digit input is rejected. -/
theorem formatPhoneNumber_spec_witness :
    formatPhoneNumber "0096170000000" = Except.ok "96170000000" ∧
    ∃ e, formatPhoneNumber "123456789" = Except.error e := by
  constructor
  · exact ((formatPhoneNumber_spec "0096170000000").1 (by decide) (by decide)).trans rfl
  · exact (formatPhoneNumber_spec "123456789").2 (by decide)

/-- C6 counterexample: normalization succeeds on 000123456789012 with the
13-digit result 0123456789012, but normalizing that already-normalized
number again returns the different number 123456789012, so
normalize(normalize(p)) differs from normalize(p). -/
theorem formatPhoneNumber_not_idempotent :
    formatPhoneNumber "000123456789012" = Except.ok "0123456789012" ∧
    formatPhoneNumber "0123456789012" = Except.ok "123456789012" ∧
    ("123456789012" : String) ≠ "0123456789012" :=
  ⟨rfl, rfl, by decide⟩

theorem collapseIntl_subset (digits : List Char) : collapseIntl digits ⊆ digits := by
  unfold collapseIntl
  split
  · exact List.drop_subset 2 digits
  · split
    · exact List.drop_subset 1 digits
    · exact fun a ha => ha

/-- C6 (amended): normalization is idempotent exactly when its result no
longer matches a collapsing rule.  For every successfully normalized result,
if it does not begin with 00 and does not begin with 0 while having more than
10 digits, re-normalizing succeeds and returns it unchanged; if it does match
one of those collapsing conditions (such results are reachable, as the
counterexample shows), re-normalizing applies the collapse again and returns
a different number or fails, never the same number. -/
theorem formatPhoneNumber_idempotent (p s : String)
    (h : formatPhoneNumber p = Except.ok s) :
    (s.data.take 2 ≠ ['0', '0'] → ¬(s.data.take 1 = ['0'] ∧ 10 < s.data.length) →
        formatPhoneNumber s = Except.ok s) ∧
    (s.data.take 2 = ['0', '0'] ∨ (s.data.take 1 = ['0'] ∧ 10 < s.data.length) →
        formatPhoneNumber s ≠ Except.ok s) := by
  unfold formatPhoneNumber at h
  cases hcore : formatNumberCore p (p.data.filter Char.isDigit) with
  | error e =>
    rw [hcore] at h
    simp [Except.map] at h
  | ok c =>
    rw [hcore] at h
    simp only [Except.map] at h
    have hs : s = String.mk c := by
      cases h
      rfl
    unfold formatNumberCore at hcore
    split at hcore
    · cases hcore
    · split at hcore
      · cases hcore
      · rename_i hlen1 hlen2
        have hc : c = collapseIntl (p.data.filter Char.isDigit) := by
          cases hcore
          rfl
        have hdig : ∀ a ∈ c, a.isDigit := by
          intro a ha
          rw [hc] at ha
          exact List.of_mem_filter (collapseIntl_subset _ ha)
        have hsdata : s.data = c := by
          rw [hs]
        have hfilter : s.data.filter Char.isDigit = c := by
          rw [hsdata]
          exact List.filter_eq_self.mpr (fun a ha => hdig a ha)
        rw [← hc] at hlen1 hlen2
        constructor
        · intro ht2 ht1
          rw [hsdata] at ht2 ht1
          have hcollapse : collapseIntl c = c := by
            unfold collapseIntl
            rw [if_neg ht2, if_neg ht1]
          unfold formatPhoneNumber formatNumberCore
          rw [hfilter, hcollapse, if_neg (by omega), if_neg (by omega)]
          simp only [Except.map]
          rw [hs]
        · intro hcol heq
          rw [hsdata] at hcol
          have hlt : (collapseIntl c).length < c.length := by
            unfold collapseIntl
            by_cases h2 : c.take 2 = ['0', '0']
            · rw [if_pos h2]
              have hge2 : 2 ≤ c.length := by
                have := congrArg List.length h2
                simp [List.length_take] at this
                omega
              simp [List.length_drop]
              omega
            · rcases hcol with h2x | h1
              · exact absurd h2x h2
              · rw [if_neg h2, if_pos h1]
                simp [List.length_drop]
                omega
          unfold formatPhoneNumber formatNumberCore at heq
          rw [hfilter] at heq
          split at heq
          · simp [Except.map] at heq
          · split at heq
            · simp [Except.map] at heq
            · simp only [Except.map, Except.ok.injEq] at heq
              have : (collapseIntl c).length = s.data.length := by
                rw [← heq]
              rw [hsdata] at this
              omega

/-- Witness for C6 (amended) at concrete inputs: an 11-digit number with no
leading zero re-normalizes to itself, while the counterexample's 0-leading
13-digit result does not survive re-normalization unchanged. -/
theorem formatPhoneNumber_idempotent_witness :
    formatPhoneNumber "96170000000" = Except.ok "96170000000" ∧
    formatPhoneNumber "0123456789012" ≠ Except.ok "0123456789012" := by
  constructor
  · exact (formatPhoneNumber_idempotent "96170000000" "96170000000" rfl).1
      (by decide) (by decide)
  · exact (formatPhoneNumber_idempotent "000123456789012" "0123456789012" rfl).2 (by decide)

/-- C7: message validation fails when the message is empty after trimming or
when its trimmed length exceeds 4096 characters, and for a trimmed length in
(0, 4096] it succeeds and returns exactly the trimmed message. -/
theorem validateMessage_spec (m : String) :
    ((trim m).length = 0 → ∃ e, validateMessage m = Except.error e) ∧
    (4096 < (trim m).length → ∃ e, validateMessage m = Except.error e) ∧
    (0 < (trim m).length → (trim m).length ≤ 4096 →
        validateMessage m = Except.ok (trim m)) := by
  by_cases hm : m = ""
  · subst hm
    exact ⟨fun _ => ⟨_, rfl⟩, fun _ => ⟨_, rfl⟩, fun h1 _ => absurd h1 (by decide)⟩
  · simp only [validateMessage, if_neg hm]
    refine ⟨fun h => ?_, fun h => ?_, fun h1 h2 => ?_⟩
    · rw [if_pos h]
      exact ⟨_, rfl⟩
    · rw [if_neg (by omega), if_pos h]
      exact ⟨_, rfl⟩
    · rw [if_neg (by omega), if_neg (by omega)]

/-- Witness for C7 at concrete inputs: a padded message is returned trimmed,
and a whitespace-only message is rejected. -/
theorem validateMessage_spec_witness :
    validateMessage " hello " = Except.ok "hello" ∧
    ∃ e, validateMessage "   " = Except.error e := by
  constructor
  · exact ((validateMessage_spec " hello ").2.2 (by decide) (by decide)).trans rfl
  · exact (validateMessage_spec "   ").1 (by decide)

/-- C8 counterexample: with a registry holding only the session other-session,
a send requested for the absent id requested-session does not surface the
lookup error: it proceeds with the different registered session
other-session substituted for the requested one. -/
theorem resolveSessionId_fallback_counterexample :
    resolveSessionId ["other-session"] "requested-session" = Except.ok "other-session" ∧
    "other-session" ≠ "requested-session" :=
  ⟨rfl, by decide⟩

/-- C8 (amended): a send invoked with an unregistered session id surfaces the
lookup error only when the registry is empty.  With a non-empty registry the
shared fallback block reassigns the session id variable to the first
registered session: `sendBulkMessages` then proceeds with that substituted
session, because its per-item `sendMessage` re-looks the client up under the
reassigned id and finds it; `sendGroupMessage` does not proceed with any
session, because its stale const client binding stays undefined and the send
dereference throws a TypeError instead of the lookup error.  A registered id
is used as requested by both operations. -/
theorem sessionLookupFallback_spec (clientIds : List String) (sessionId : String) :
    (sessionId ∈ clientIds →
        resolveSessionId clientIds sessionId = Except.ok sessionId ∧
        sendGroupMessageUses clientIds sessionId = Except.ok sessionId) ∧
    (sessionId ∉ clientIds → clientIds = [] →
        resolveSessionId clientIds sessionId =
          Except.error
            ("WhatsApp session not found or not connected. Requested: " ++ sessionId) ∧
        sendGroupMessageUses clientIds sessionId =
          Except.error
            ("WhatsApp session not found or not connected. Requested: " ++ sessionId)) ∧
    (sessionId ∉ clientIds → ∀ first rest, clientIds = first :: rest →
        resolveSessionId clientIds sessionId = Except.ok first ∧
        sendMessageClientLookup clientIds first = Except.ok first ∧
        sendGroupMessageUses clientIds sessionId =
          Except.error
            "TypeError: Cannot read properties of undefined (reading sendMessage)") := by
  refine ⟨fun h => ?_, fun h he => ?_, fun h first rest he => ?_⟩
  · constructor
    · simp [resolveSessionId, h]
    · simp [sendGroupMessageUses, groupFallbackBlock, h, Except.bind, groupSendDeref]
  · subst he
    constructor
    · simp [resolveSessionId, h]
    · simp [sendGroupMessageUses, groupFallbackBlock, h, Except.bind]
  · subst he
    refine ⟨?_, ?_, ?_⟩
    · simp [resolveSessionId, h]
    · simp [sendMessageClientLookup]
    · simp [sendGroupMessageUses, groupFallbackBlock, h, Except.bind, groupSendDeref]

/-- Witness for C8 (amended) at concrete inputs: a registered id is used as
requested by both paths; with registry [other-session] and the absent id
requested-session, the bulk path's re-lookup proceeds on the substituted
session while the group send fails with the TypeError. -/
theorem sessionLookupFallback_witness :
    resolveSessionId ["s1"] "s1" = Except.ok "s1" ∧
    sendGroupMessageUses ["s1"] "s1" = Except.ok "s1" ∧
    sendMessageClientLookup ["other-session"] "other-session" = Except.ok "other-session" ∧
    sendGroupMessageUses ["other-session"] "requested-session" =
      Except.error "TypeError: Cannot read properties of undefined (reading sendMessage)" := by
  have h1 := (sessionLookupFallback_spec ["s1"] "s1").1 (by decide)
  have h3 := (sessionLookupFallback_spec ["other-session"] "requested-session").2.2
    (by decide) "other-session" [] rfl
  exact ⟨h1.1, h1.2, h3.2.1, h3.2.2⟩

/-- C9 counterexample: a cache-miss health check of a session whose client is
absent classifies it as unhealthy with reason Client not found in memory, but
via the `getWhatsAppContacts` gate that classification is handed to
`handleUnhealthySession` and increments the failedChecks counter from 0 to 1,
counting toward the recovery threshold. -/
theorem contactsNotFound_counterexample :
    checkSessionHealthCached none none =
      { healthy := false, reason := "Client not found in memory" } ∧
    (getWhatsAppContactsGate true (checkSessionHealthCached none none)
        (some { healthy := false, failedChecks := 0, lastError := none })).1 =
      some { healthy := false, failedChecks := 1,
             lastError := some "Client not found in memory" } :=
  ⟨rfl, by decide⟩

/-- C9 (amended): a health check of an absent client handle immediately
classifies the session as unhealthy with reason Client not found in memory,
and the cached check itself performs no counter update; however, when the
check runs inside `getWhatsAppContacts`, every unhealthy result, the
not-found classification included, is forwarded to `handleUnhealthySession`,
incrementing the session's failedChecks counter by one (and triggering
recovery at the threshold), while the listing itself is abandoned. -/
theorem checkSessionHealthCached_spec (c : Bool) (st : Option HealthRecord) :
    (checkSessionHealthCached none none =
        { healthy := false, reason := "Client not found in memory" }) ∧
    (∀ hr : HealthResult, hr.healthy = true →
        getWhatsAppContactsGate c hr st = (st, false, true)) ∧
    (∀ hr : HealthResult, hr.healthy = false →
        (getWhatsAppContactsGate c hr st).1 = (handleUnhealthySession c st hr.reason).1 ∧
        (getWhatsAppContactsGate c hr st).2.1 = (handleUnhealthySession c st hr.reason).2 ∧
        (getWhatsAppContactsGate c hr st).2.2 = false ∧
        (fcOf st + 1 < maxFailedChecks →
            fcOf (getWhatsAppContactsGate c hr st).1 = fcOf st + 1)) := by
  refine ⟨rfl, fun hr hh => ?_, fun hr hh => ?_⟩
  · simp [getWhatsAppContactsGate, hh]
  · have hgate : getWhatsAppContactsGate c hr st =
        ((handleUnhealthySession c st hr.reason).1,
          (handleUnhealthySession c st hr.reason).2, false) := by
      simp [getWhatsAppContactsGate, hh]
    refine ⟨by rw [hgate], by rw [hgate], by rw [hgate], fun hlt => ?_⟩
    rw [hgate]
    have := handleUnhealthy_eq c st hr.reason
    rw [this, if_neg (by omega)]
    rfl

/-- Witness for C9 (amended) at concrete inputs: the not-found result passed
through the contacts gate takes an absent record to one failed check. -/
theorem checkSessionHealthCached_spec_witness :
    fcOf (getWhatsAppContactsGate true
        { healthy := false, reason := "Client not found in memory" } none).1 = 1 := by
  have h := ((checkSessionHealthCached_spec true none).2.2
    { healthy := false, reason := "Client not found in memory" } rfl).2.2.2 (by decide)
  simpa [fcOf] using h

/-- C10: the session and group listings never propagate an internal failure
to the caller: a database error yields the empty list for both `getSessions`
and `getGroups`, a state-query error on one session falls back to that
session's persisted status, and on database success `getSessions` yields
exactly one entry per persisted document, so the caller can always iterate
the result. -/
theorem listings_never_raise :
    (∀ (e : String) (clients : List (String × PollOutcome)),
        getSessions (Except.error e) clients = []) ∧
    (∀ e : String, getGroups (Except.error e) = []) ∧
    (∀ (m : String) (dbStatus : Option String),
        actualStatus (some (PollOutcome.error m)) dbStatus = statusOrDisconnected dbStatus) ∧
    (∀ (docs : List SessionDoc) (clients : List (String × PollOutcome)),
        (getSessions (Except.ok docs) clients).length = docs.length) := by
  refine ⟨fun e clients => rfl, fun e => rfl, fun m dbStatus => rfl, fun docs clients => ?_⟩
  simp [getSessions]

end Balagh
